import Mathlib

/-!
Shallow embedding of `Source/Core/VideoCommon/HiresTextures.cpp` (MoArtis/dolphin),
the hi-res texture replacement subsystem: content-addressed name resolution
(`HiresTexture::GenBaseName` with the `ReThreeMaskHack` state), the mip-chain
loader/validator (`HiresTexture::Load`), the texture cache (`HiresTexture::Search`,
the staleness sweep in `Update`, `Clear`) and the prefetcher (`HiresTexture::Prefetch`).

Machine integers are modelled as `Nat` with explicit reductions mod `2^32` where the
C++ computes in `u32`. External collaborators that are not part of the provided
sources (the xxhash library, `Common/Swap.h`, the DDS/PNG codecs, file reads) are
modelled as explicit parameters or spec-modelled functions, each marked in its
doc comment.
-/

/-- Modelled from the spec: the 64-bit content hash (the external xxhash library's
`XXH64` with seed 0 is not part of the provided sources). The spec requires only an
order-sensitive, stable, 64-bit hash of the byte stream; it is modelled as the
little-endian positional value of the bytes reduced mod `2^64`. -/
def xxh64 (bytes : List Nat) : Nat :=
  (bytes.foldr (fun b acc => b % 256 + 256 * acc) 0) % (2 ^ 64)

/-- Modelled from the spec: `Common::swap16` (from `Common/Swap.h`, which is not part
of the provided sources) exchanges the two bytes of a 16-bit value. At the call site
in `GenBaseName`, the argument is the single texel byte `texture[i]` (a `u8`), which
C++ integral promotion widens to 16 bits before the swap. -/
def swap16 (v : Nat) : Nat :=
  (v % 256) * 256 + (v / 256) % 256

/-- The 14-bit case of the active-index scan in `GenBaseName` (`case 16384 * 2`):
steps through the texel stream two bytes at a time, computing
`Common::swap16(texture[i]) & 0x3fff` for the byte at each even offset and folding
min/max. -/
def scan14 : List Nat → Nat × Nat → Nat × Nat
  | [], mm => mm
  | [b], mm =>
    let v := swap16 (b % 256) % 16384
    (min mm.1 v, max mm.2 v)
  | b :: _ :: rest, mm =>
    let v := swap16 (b % 256) % 16384
    scan14 rest (min mm.1 v, max mm.2 v)

/-- The active-index scan of `GenBaseName` (the `switch (tlut_size)`): returns the
`(min, max)` pair, starting from `min = 0xffff`, `max = 0`. Recognized palette byte
sizes are `16*2` (4-bit nibbles), `256*2` (8-bit bytes) and `16384*2` (14-bit
halfword path via `scan14`); any other size leaves `(0xffff, 0)` untouched. -/
def palScan (tlutSize : Nat) (texture : List Nat) : Nat × Nat :=
  if tlutSize = 32 then
    texture.foldl
      (fun mm b =>
        let lo := b % 16
        let hi := (b % 256) / 16
        (min (min mm.1 lo) hi, max (max mm.2 lo) hi))
      (0xffff, 0)
  else if tlutSize = 512 then
    texture.foldl (fun mm b => (min mm.1 (b % 256), max mm.2 (b % 256))) (0xffff, 0)
  else if tlutSize = 32768 then
    scan14 texture (0xffff, 0)
  else (0xffff, 0)

/-- The palette trim step of `GenBaseName`: when `tlut_size > 0` the code executes
`tlut_size = 2 * (max + 1 - min); tlut += 2 * min;` in `u32` arithmetic. Returns the
`(byte offset, byte size)` of the palette range that is subsequently hashed. -/
def tlutTrim (tlutSize : Nat) (texture : List Nat) : Nat × Nat :=
  if tlutSize > 0 then
    let mm := palScan tlutSize texture
    ((2 * mm.1) % (2 ^ 32), (2 * ((mm.2 + 1 + 2 ^ 32 - mm.1) % (2 ^ 32))) % (2 ^ 32))
  else (0, 0)

/-- Format helper `fmt::format("{:016x}", n)`: lowercase hexadecimal, zero-padded to 16 digits. -/
def hex16 (n : Nat) : String :=
  let ds := Nat.toDigits 16 n
  ⟨List.replicate (16 - ds.length) '0' ++ ds⟩

/-- Format helper `fmt::format("{}{}x{}{}", s_format_prefix, width, height, has_mipmaps ? "_m" : "")`. -/
def baseNameOf (width height : Nat) (hasMipmaps : Bool) : String :=
  "tex1_" ++ Nat.repr width ++ "x" ++ Nat.repr height ++ (if hasMipmaps then "_m" else "")

/-- Format helper `fmt::format("_{:016x}", tex_hash)` where `tex_hash = XXH64(texture, texture_size, 0)`. -/
def texNameOf (texture : List Nat) : String :=
  "_" ++ hex16 (xxh64 texture)

/-- The `tlut_name` segment: `fmt::format("_{:016x}", tlut_hash)` when the post-trim `tlut_size`
is non-zero, else the empty string; `tlut_hash` hashes the trimmed palette range. -/
def tlutNameOf (texture tlut : List Nat) (tlutSize : Nat) : String :=
  let t := tlutTrim tlutSize texture
  if t.2 ≠ 0 then "_" ++ hex16 (xxh64 ((tlut.drop t.1).take t.2)) else ""

/-- Format helper `fmt::format("_{}", static_cast<int>(format))`. -/
def formatNameOf (format : Nat) : String :=
  "_" ++ Nat.repr format

/-- Struct `HiresTexture::ReThreeMaskHackTlutToId`: field names and order are taken from the
aggregate initializers in `ReThreeMaskHackInit` and the uses in `ReThreeMaskHack`
(`id`, `tlut`, `tlut_alt`, the last defaulting to the empty string). -/
structure TlutToId where
  id : String
  tlut : String
  tlutAlt : String
deriving DecidableEq, Repr

/-- The `reThreeHackTexMap` table built by `ReThreeMaskHackInit`. -/
def reThreeHackTexMap : List (String × TlutToId) :=
  [("_20c67ecf1252aacb", ⟨"_R11B01", "_e3c364c1425f893c", ""⟩),
   ("_54cfa79672366bd7", ⟨"_R11B0A", "_e3c364c1425f893c", ""⟩),
   ("_c492e7939b95fdf2", ⟨"_R21801", "_91fbb229c7fa0f59", "_338ef6c05709e506"⟩),
   ("_9b12ad33a0f7ad05", ⟨"_R21807", "_91fbb229c7fa0f59", "_338ef6c05709e506"⟩),
   ("_61d5ab40c32e722f", ⟨"_R40F07", "_35ad92fce547a1d0", ""⟩),
   ("_55d89429aa7e4838", ⟨"_R40F09", "_35ad92fce547a1d0", ""⟩)]

/-- Function `HiresTexture::ReThreeMaskHack`: the global `tlutToId` pointer is threaded as an
explicit `Option TlutToId` state. Width 320/640 latches the map entry for the texture
hash; width 256 rewrites `tlutname` to the latched id if the palette hash matches the
entry's `tlut` (or a non-empty `tlut_alt`), clearing the latch; other widths do
nothing. Returns the (possibly rewritten) `tlutname` and the new state. -/
def reThreeMaskHack (texname tlutname : String) (width : Nat) (st : Option TlutToId) :
    String × Option TlutToId :=
  if width = 320 ∨ width = 640 then
    match reThreeHackTexMap.lookup texname with
    | some e => (tlutname, some e)
    | none => (tlutname, st)
  else if width = 256 then
    match st with
    | some e =>
      if e.tlut = tlutname then (e.id, none)
      else if e.tlutAlt ≠ "" ∧ e.tlutAlt = tlutname then (e.id, none)
      else (tlutname, st)
    | none => (tlutname, st)
  else (tlutname, st)

/-- Function `HiresTexture::GenBaseName(texture, texture_size, tlut, tlut_size, width, height,
format, has_mipmaps, dump)`. The catalog `s_textureMap` is passed as the list of its
keys, and the `ReThreeMaskHack` latch as an explicit state that is returned alongside
the name. Returns `""` when not dumping and either the catalog is empty or none of
the three lookup forms (palette-agnostic wildcard, palette wildcard, full name) has a
catalog entry. -/
def genBaseName (cat : List String) (dump : Bool) (st : Option TlutToId)
    (texture tlut : List Nat) (tlutSize width height format : Nat) (hasMipmaps : Bool) :
    String × Option TlutToId :=
  if !dump && cat.isEmpty then ("", st)
  else
    let base := baseNameOf width height hasMipmaps
    let tn := texNameOf texture
    let fn := formatNameOf format
    let hack := reThreeMaskHack tn (tlutNameOf texture tlut tlutSize) width st
    let tl := hack.1
    let full := base ++ tn ++ tl ++ fn
    if !dump && cat.contains (base ++ tn ++ "_$" ++ fn) then
      (base ++ tn ++ "_$" ++ fn, hack.2)
    else if !dump && cat.contains (base ++ "_$" ++ tl ++ fn) then
      (base ++ "_$" ++ tl ++ fn, hack.2)
    else if dump || cat.contains full then (full, hack.2)
    else ("", hack.2)

/-- One mip level (`Level` in `HiresTextures.h`, as used by this translation unit):
pixel dimensions, the pixel/block format discriminant, the row length and the byte
size of the level's data buffer (`data.size()`). -/
structure Level where
  width : Nat
  height : Nat
  format : Nat
  rowLength : Nat
  dataSize : Nat
deriving DecidableEq, Repr

/-- The format discriminant of `AbstractTextureFormat::RGBA8`, which `LoadTexture`
assigns to every PNG-decoded level. -/
def rgba8 : Nat := 0

/-- The mip-geometry validation loop of `HiresTexture::Load` (the
`for (u32 mip_level = 1; ...)` loop): `cw`/`ch` are the running expected dimensions
(`current_mip_width`/`current_mip_height`). While the expected dimensions are not
both 1, each level must equal the halved expected dimensions or it and everything
after it is dropped; once the expected dimensions are 1x1 any further level is an
illegal extra 1x1-tail level and is dropped with everything after it. -/
def dropInvalidLevels : Nat → Nat → List Level → List Level
  | _, _, [] => []
  | cw, ch, l :: rest =>
    if cw ≠ 1 ∨ ch ≠ 1 then
      let nw := max (cw / 2) 1
      let nh := max (ch / 2) 1
      if l.width = nw ∧ l.height = nh then l :: dropInvalidLevels nw nh rest
      else []
    else []

/-- The mip chain after `Load`'s geometry validation: level 0 is kept as-is and the
tail is filtered by `dropInvalidLevels` starting from level 0's dimensions. -/
def truncateChain : List Level → List Level
  | [] => []
  | l0 :: rest => l0 :: dropInvalidLevels l0.width l0.height rest

/-- The tail of `HiresTexture::Load` after all levels have been assembled: an empty
level list is rejected (`return nullptr`), the mip chain is geometry-truncated, and a
format differing from level 0's anywhere in the kept chain rejects the whole
replacement (`return nullptr`); otherwise the kept chain is returned. -/
def validateLevels (levels : List Level) : Option (List Level) :=
  match levels with
  | [] => none
  | l0 :: rest =>
    let kept := l0 :: dropInvalidLevels l0.width l0.height rest
    if kept.any fun l => l.format ≠ l0.format then none else some kept

/-- Struct `DiskTexture`: one catalog entry, a file path plus the arbitrary-mipmaps flag. -/
structure DiskTexture where
  path : String
  hasArbitraryMipmaps : Bool
deriving DecidableEq, Repr

/-- The catalog `s_textureMap`, as an association list from canonical name to
`DiskTexture`. -/
abbrev Catalog := List (String × DiskTexture)

/-- A loaded replacement texture (`HiresTexture`): its mip levels and the
arbitrary-mipmaps flag. -/
structure HiresTex where
  levels : List Level
  hasArbitraryMipmaps : Bool
deriving DecidableEq, Repr

/-- Modelled from the spec: the result of the flat-image (PNG) codec collaborator
`Common::LoadPNG`, which is not part of the provided sources: decoded pixel data
byte size and dimensions. -/
structure PngImage where
  dataSize : Nat
  width : Nat
  height : Nat
deriving DecidableEq, Repr

/-- Modelled from the spec: the external collaborators of `HiresTexture::Load` that
are not part of the provided sources, passed as explicit functions: the DDS
container decoder (`LoadDDSTexture` on a whole texture, yielding level 0 plus any
embedded mips, empty on failure), the per-mip DDS decoder (`LoadDDSTexture` on a
single `Level`), the raw file read (`File::IOFile`), and the PNG decoder
(`Common::LoadPNG`). -/
structure ExtDeps where
  ddsFull : String → List Level
  ddsMip : String → Nat → Option Level
  readFile : String → List Nat
  png : List Nat → Option PngImage

/-- Function `HiresTexture::LoadTexture`: PNG-decode a byte buffer into a level; fails when
the decoder fails or yields empty data; the level's format is always RGBA8 and its
row length equals its width. -/
def loadTexture (png : List Nat → Option PngImage) (buffer : List Nat) : Option Level :=
  match png buffer with
  | none => none
  | some img =>
    if img.dataSize = 0 then none
    else some ⟨img.width, img.height, rgba8, img.width, img.dataSize⟩

/-- The `base_filename` for mip level `k` of `Load`'s lookup loop: the base name itself
for level 0, else `base + "_mip" + k`. -/
def mipName (base : String) (k : Nat) : String :=
  if k = 0 then base else base ++ "_mip" ++ Nat.repr k

/-- The remaining-mip-levels loop of `HiresTexture::Load`: starting at level `k`
(the number of levels the DDS container path already produced), look up the catalog
entry for each successive mip name; stop at the first missing entry; for each found
entry prefer the per-mip DDS decode and fall back to reading the file and
PNG-decoding it; a decode failure stops the loop keeping the levels accumulated so
far. `fuel` bounds the recursion; since every successful iteration consumes a
distinct catalog key, `cat.length + 1` fuel is enough to reach the first missing
key. -/
def loadLoop (E : ExtDeps) (cat : Catalog) (base : String) :
    Nat → Nat → List Level → List Level
  | 0, _, acc => acc
  | fuel + 1, k, acc =>
    match cat.lookup (mipName base k) with
    | none => acc
    | some dt =>
      match E.ddsMip dt.path k with
      | some lvl => loadLoop E cat base fuel (k + 1) (acc ++ [lvl])
      | none =>
        match loadTexture E.png (E.readFile dt.path) with
        | some lvl => loadLoop E cat base fuel (k + 1) (acc ++ [lvl])
        | none => acc

/-- Function `HiresTexture::Load(base_filename, width, height)` without the purely-logged
aspect-ratio and integer-upscale checks (they do not affect the result): no catalog
entry for the base name means no replacement; otherwise assemble levels from the DDS
container path plus the lookup loop, then validate (empty chain or mixed formats
reject, bad mip geometry truncates). -/
def load (E : ExtDeps) (cat : Catalog) (base : String) : Option HiresTex :=
  match cat.lookup base with
  | none => none
  | some dt =>
    let lv0 := E.ddsFull dt.path
    let levels := loadLoop E cat base (cat.length + 1) lv0.length lv0
    match validateLevels levels with
    | none => none
    | some kept => some ⟨kept, dt.hasArbitraryMipmaps⟩

/-- The decoded-texture cache `s_textureCache`, as an association list. -/
abbrev Cache := List (String × HiresTex)

/-- Map write `s_textureCache[key] = value`: replace the entry for `key` or append a new one. -/
def cacheInsert : Cache → String → HiresTex → Cache
  | [], k, v => [(k, v)]
  | (k', v') :: rest, k, v =>
    if k' = k then (k, v) :: rest else (k', v') :: cacheInsert rest k v

/-- Function `HiresTexture::Search` from the point where the base name is known: return the
cached entry on a hit; on a miss, `Load` and, when the result is non-null and
caching is enabled (`g_ActiveConfig.bCacheHiresTextures`), insert it; a failed load
inserts nothing. Returns the looked-up/loaded texture and the updated cache. -/
def search (E : ExtDeps) (cat : Catalog) (cache : Cache) (cacheEnabled : Bool)
    (base : String) : Option HiresTex × Cache :=
  match cache.lookup base with
  | some t => (some t, cache)
  | none =>
    match load E cat base with
    | some t => (some t, if cacheEnabled then cacheInsert cache base t else cache)
    | none => (none, cache)

/-- The staleness sweep of `HiresTexture::Update`: every cached key that no longer
has a catalog entry is erased. -/
def staleSweep (cat : Catalog) (cache : Cache) : Cache :=
  cache.filter fun kv => (cat.lookup kv.1).isSome

/-- Function `HiresTexture::Clear`: the cache after a full clear. -/
def clearedCache : Cache := []

/-- Test whether `p` starts `s` on character lists, written out: used for the `_mip` substring
test below. -/
def listStartsWith : List Char → List Char → Bool
  | [], _ => true
  | _ :: _, [] => false
  | p :: ps, c :: cs => p == c && listStartsWith ps cs

/-- Substring test `s.find(pat) != std::string::npos`: some position of `s` starts with `pat`. -/
def listHasSub (pat : List Char) : List Char → Bool
  | [] => listStartsWith pat []
  | c :: rest => listStartsWith pat (c :: rest) || listHasSub pat rest

/-- The test `base_filename.find("_mip") != std::string::npos` in `Prefetch`. -/
def hasMipMarker (s : String) : Bool :=
  listHasSub "_mip".data s.data

/-- Byte size of a loaded texture as `Prefetch` accumulates it: the sum of
`l.data.size()` over its levels. -/
def texByteSize (t : HiresTex) : Nat :=
  (t.levels.map fun l => l.dataSize).sum

/-- Constant `recommended_min_mem` in `Prefetch`: `2 * size_t(1024 * 1024 * 1024)`, the fixed
2 GiB safety reserve. -/
def recommendedMinMem : Nat := 2 * (1024 * 1024 * 1024)

/-- Ceiling `max_mem` in `Prefetch`:
`(sys_mem / 2 < recommended_min_mem) ? (sys_mem / 2) : (sys_mem - recommended_min_mem)`. -/
def maxMem (sysMem : Nat) : Nat :=
  if sysMem / 2 < recommendedMinMem then sysMem / 2 else sysMem - recommendedMinMem

/-- An on-screen-display event posted by `Prefetch` through `OSD::AddMessage`; the
formatted strings are pure functions of the recorded payloads, so the events carry
the payloads: the accumulated byte size for the "not enough RAM" abort message, and
the accumulated byte size for the normal completion summary (elapsed time omitted). -/
inductive OsdEvent where
  | notEnoughRam (sizeSum : Nat)
  | loaded (sizeSum : Nat)
deriving DecidableEq, Repr

/-- The running state of the prefetch loop: the cache and `size_sum`. -/
structure PrefetchState where
  cache : Cache
  sizeSum : Nat
deriving DecidableEq, Repr

/-- The outcome of `Prefetch`: the final cache, the OSD messages posted, the value
of the `GFX_HIRES_TEXTURES` config flag afterwards (it starts `true`, since
`Prefetch` only runs when the feature is on), and the catalog entries left
unprocessed when the loop stopped early. -/
structure PrefetchResult where
  cache : Cache
  osd : List OsdEvent
  gfxHiresTextures : Bool
  remaining : List (String × DiskTexture)
deriving Repr

/-- One catalog entry of the `Prefetch` loop body before the abort/budget checks:
entries whose name contains `_mip` are skipped; otherwise a cache hit adds the
cached texture's byte size, a cache miss loads and (only on success) inserts and
adds the loaded texture's byte size, and a failed load changes nothing. -/
def prefetchEntryState (E : ExtDeps) (cat : Catalog) (st : PrefetchState) (name : String) :
    PrefetchState :=
  if hasMipMarker name then st
  else
    match st.cache.lookup name with
    | some t => ⟨st.cache, st.sizeSum + texByteSize t⟩
    | none =>
      match load E cat name with
      | some t => ⟨cacheInsert st.cache name t, st.sizeSum + texByteSize t⟩
      | none => st

/-- The `Prefetch` loop over the catalog entries: after each entry the abort flag
(`s_textureCacheAbortLoading`, modelled as a predicate on the step index since it is
set externally) stops the loop silently; then `size_sum > max_mem` stops it, turns
the `GFX_HIRES_TEXTURES` config flag off and posts the "not enough RAM" message with
the accumulated size; normal completion posts the loaded-summary message. -/
def prefetchLoop (E : ExtDeps) (cat : Catalog) (abort : Nat → Bool) (budget : Nat) :
    List (String × DiskTexture) → Nat → PrefetchState → PrefetchResult
  | [], _, st => ⟨st.cache, [OsdEvent.loaded st.sizeSum], true, []⟩
  | e :: rest, k, st =>
    let st' := prefetchEntryState E cat st e.1
    if abort k then ⟨st'.cache, [], true, rest⟩
    else if budget < st'.sizeSum then
      ⟨st'.cache, [OsdEvent.notEnoughRam st'.sizeSum], false, rest⟩
    else prefetchLoop E cat abort budget rest (k + 1) st'

/-- Function `HiresTexture::Prefetch`: run the loop over every catalog entry with the
computed memory ceiling, starting from the current cache with `size_sum = 0`. -/
def prefetch (E : ExtDeps) (cat : Catalog) (abort : Nat → Bool) (sysMem : Nat)
    (cache : Cache) : PrefetchResult :=
  prefetchLoop E cat abort (maxMem sysMem) cat 0 ⟨cache, 0⟩

/-- The mutex-relevant atomic actions performed by the cache paths, in program
order: acquiring/releasing `s_textureCacheMutex`, probing the map, inserting into
the map, and calling `HiresTexture::Load` (the disk+decode step). -/
inductive CacheAction where
  | lock
  | unlock
  | probe
  | insert
  | loadCall
deriving DecidableEq, Repr

/-- The action trace of `HiresTexture::Search` (after `GenBaseName`, which runs
before the lock): a `std::lock_guard` is taken for the whole scope, the map is
probed, on a miss `Load` is called and a non-null result is inserted when caching
is enabled, and the guard releases the mutex only at scope exit. -/
def searchActions (hit loadOk cacheEnabled : Bool) : List CacheAction :=
  [CacheAction.lock, CacheAction.probe] ++
    (if hit then []
     else [CacheAction.loadCall] ++
       (if loadOk && cacheEnabled then [CacheAction.insert] else [])) ++
  [CacheAction.unlock]

/-- The action trace of one non-`_mip` catalog entry in `HiresTexture::Prefetch`: a
`std::unique_lock` is taken, the map is probed, and on a miss the lock is explicitly
released around `Load` and re-acquired to insert a non-null result. -/
def prefetchEntryActions (hit loadOk : Bool) : List CacheAction :=
  [CacheAction.lock, CacheAction.probe] ++
    (if hit then []
     else [CacheAction.unlock, CacheAction.loadCall, CacheAction.lock] ++
       (if loadOk then [CacheAction.insert] else [])) ++
  [CacheAction.unlock]

/-- Whether any `loadCall` in the trace happens while the mutex is held, tracking
the lock depth from `d`. -/
def loadsWhileLocked : List CacheAction → Nat → Bool
  | [], _ => false
  | CacheAction.lock :: r, d => loadsWhileLocked r (d + 1)
  | CacheAction.unlock :: r, d => loadsWhileLocked r (d - 1)
  | CacheAction.loadCall :: r, d => decide (0 < d) || loadsWhileLocked r d
  | CacheAction.probe :: r, d => loadsWhileLocked r d
  | CacheAction.insert :: r, d => loadsWhileLocked r d

/-- The bytes at even offsets of a byte stream (offsets 0, 2, 4, ...). -/
def evenBytes : List Nat → List Nat
  | [] => []
  | [b] => [b]
  | b :: _ :: rest => b :: evenBytes rest

/-- The 14-bit active-index scan as the specification describes it: read each
consecutive 16-bit little-endian entry of the raw texel stream, mask it to 14 bits,
and fold min/max (a lone trailing byte is taken as its own masked entry). -/
def scan14Spec : List Nat → Nat × Nat → Nat × Nat
  | [], mm => mm
  | [b], mm =>
    let v := (b % 256) % 16384
    (min mm.1 v, max mm.2 v)
  | b0 :: b1 :: rest, mm =>
    let v := ((b0 % 256) + 256 * (b1 % 256)) % 16384
    scan14Spec rest (min mm.1 v, max mm.2 v)

/-- On widths other than 256, 320 and 640 the `ReThreeMaskHack` switch falls through:
the palette name and the latch state pass unchanged. -/
theorem reThreeMaskHack_inactive (texname tlutname : String) (width : Nat)
    (st : Option TlutToId) (h1 : width ≠ 256) (h2 : width ≠ 320) (h3 : width ≠ 640) :
    reThreeMaskHack texname tlutname width st = (tlutname, st) := by
  simp [reThreeMaskHack, h1, h2, h3]

/-- C1 (amended): name resolution is a pure function of its arguments together with
the `ReThreeMaskHack` latch state: the hidden latch can only influence, and only be
mutated by, calls whose width is 256, 320 or 640; for every other width the returned
name is independent of the latch and the latch is left unchanged, so identical calls
return identical names there. -/
theorem c1_pure_outside_hack_widths (cat : List String) (dump : Bool)
    (st st' : Option TlutToId) (texture tlut : List Nat)
    (tlutSize width height format : Nat) (m : Bool)
    (h1 : width ≠ 256) (h2 : width ≠ 320) (h3 : width ≠ 640) :
    (genBaseName cat dump st texture tlut tlutSize width height format m).1 =
      (genBaseName cat dump st' texture tlut tlutSize width height format m).1 ∧
    (genBaseName cat dump st texture tlut tlutSize width height format m).2 = st := by
  simp only [genBaseName, reThreeMaskHack_inactive _ _ _ _ h1 h2 h3]
  constructor
  · split_ifs <;> rfl
  · split_ifs <;> rfl

/-- C1 (amended) witness at width 8: the two latch states give the same name and the
state passes through unchanged. -/
theorem c1_pure_outside_hack_widths_witness :
    (8 ≠ 256 ∧ 8 ≠ 320 ∧ 8 ≠ 640) ∧
    ((genBaseName [] true none [0, 1] [] 0 8 8 5 false).1 =
        (genBaseName [] true (some ⟨"_R11B01", "_e3c364c1425f893c", ""⟩) [0, 1] [] 0
            8 8 5 false).1 ∧
      (genBaseName [] true none [0, 1] [] 0 8 8 5 false).2 = none) :=
  ⟨by decide,
   c1_pure_outside_hack_widths [] true none (some ⟨"_R11B01", "_e3c364c1425f893c", ""⟩)
     [0, 1] [] 0 8 8 5 false (by decide) (by decide) (by decide)⟩

/-- C1 (counterexample): with the `ReThreeMaskHack` latch armed by an earlier
640-wide call, two back-to-back calls with identical arguments (width 256, a palette
whose trimmed hash matches the latched entry) return different canonical names: the
first call consumes the latch and rewrites the palette segment, the second does not. -/
theorem c1_counterexample :
    (genBaseName [] true
        ((genBaseName [] true none [0xcb, 0xaa, 0x52, 0x12, 0xcf, 0x7e, 0xc6, 0x20] []
            0 640 480 5 false).2)
        [0, 1, 2, 3]
        ([0x3c, 0x89, 0x5f, 0x42, 0xc1, 0x64, 0xc3, 0xe3] ++ List.replicate 504 0)
        512 256 240 5 false).1 ≠
      (genBaseName [] true
          ((genBaseName [] true
              ((genBaseName [] true none
                  [0xcb, 0xaa, 0x52, 0x12, 0xcf, 0x7e, 0xc6, 0x20] [] 0 640 480 5
                  false).2)
              [0, 1, 2, 3]
              ([0x3c, 0x89, 0x5f, 0x42, 0xc1, 0x64, 0xc3, 0xe3] ++
                List.replicate 504 0)
              512 256 240 5 false).2)
          [0, 1, 2, 3]
          ([0x3c, 0x89, 0x5f, 0x42, 0xc1, 0x64, 0xc3, 0xe3] ++ List.replicate 504 0)
          512 256 240 5 false).1 := by
  have h0 :
      (genBaseName [] true none [0xcb, 0xaa, 0x52, 0x12, 0xcf, 0x7e, 0xc6, 0x20] [] 0
          640 480 5 false).2 =
        some ⟨"_R11B01", "_e3c364c1425f893c", ""⟩ := by decide
  have h1 :
      genBaseName [] true (some ⟨"_R11B01", "_e3c364c1425f893c", ""⟩) [0, 1, 2, 3]
          ([0x3c, 0x89, 0x5f, 0x42, 0xc1, 0x64, 0xc3, 0xe3] ++ List.replicate 504 0)
          512 256 240 5 false =
        ("tex1_256x240_0000000003020100_R11B01_5", none) := by decide
  have h2 :
      (genBaseName [] true none [0, 1, 2, 3]
          ([0x3c, 0x89, 0x5f, 0x42, 0xc1, 0x64, 0xc3, 0xe3] ++ List.replicate 504 0)
          512 256 240 5 false).1 =
        "tex1_256x240_0000000003020100_e3c364c1425f893c_5" := by decide
  rw [h0, h1]
  simp only []
  rw [h2]
  decide

/-- C2: with `dump = false`, resolution returns the first of the three lookup forms
that has a catalog entry — palette-agnostic wildcard `base ++ tex ++ "_$" ++ format`
first, then the texture-agnostic wildcard `base ++ "_$" ++ tlut ++ format`, then the
fully-specific full name — and the empty string when none of the three is in the
catalog (the empty-catalog short-circuit agrees with this reading, since nothing is
in an empty catalog). -/
theorem c2_lookup_precedence (cat : List String) (st : Option TlutToId)
    (texture tlut : List Nat) (tlutSize width height format : Nat) (m : Bool) :
    (genBaseName cat false st texture tlut tlutSize width height format m).1 =
      (if cat.contains (baseNameOf width height m ++ texNameOf texture ++ "_$" ++
            formatNameOf format) then
        baseNameOf width height m ++ texNameOf texture ++ "_$" ++ formatNameOf format
      else if cat.contains (baseNameOf width height m ++ "_$" ++
            (reThreeMaskHack (texNameOf texture) (tlutNameOf texture tlut tlutSize)
                width st).1 ++ formatNameOf format) then
        baseNameOf width height m ++ "_$" ++
          (reThreeMaskHack (texNameOf texture) (tlutNameOf texture tlut tlutSize)
              width st).1 ++ formatNameOf format
      else if cat.contains (baseNameOf width height m ++ texNameOf texture ++
            (reThreeMaskHack (texNameOf texture) (tlutNameOf texture tlut tlutSize)
                width st).1 ++ formatNameOf format) then
        baseNameOf width height m ++ texNameOf texture ++
          (reThreeMaskHack (texNameOf texture) (tlutNameOf texture tlut tlutSize)
              width st).1 ++ formatNameOf format
      else "") := by
  rcases cat with _ | ⟨c, cs⟩
  · simp [genBaseName]
  · simp only [genBaseName]
    split_ifs <;> simp_all

/-- C4 (amended): the prefetch memory ceiling is the larger of half of physical
memory and physical memory minus the fixed 2 GiB reserve (with saturating
subtraction): half is used exactly when it is below the reserve (RAM under 4 GiB),
and memory-minus-reserve — the larger quantity — otherwise. -/
theorem c4_ceiling_is_max (sysMem : Nat) :
    maxMem sysMem = max (sysMem / 2) (sysMem - recommendedMinMem) := by
  unfold maxMem recommendedMinMem
  split <;> omega

/-- C4 (counterexample): at 8 GiB of physical memory, memory minus the reserve
(6 GiB) is not smaller than half (4 GiB), so the claim predicts a ceiling of half of
physical memory; the code returns memory minus the reserve instead. -/
theorem c4_counterexample :
    ¬ (8 * 2 ^ 30 - recommendedMinMem < 8 * 2 ^ 30 / 2) ∧
    maxMem (8 * 2 ^ 30) = 8 * 2 ^ 30 - recommendedMinMem ∧
    maxMem (8 * 2 ^ 30) ≠ 8 * 2 ^ 30 / 2 := by
  decide

/-- C5 (code defect): for the unrecognized non-zero palette size 2, the trim step is
not skipped: the `switch` leaves `min = 0xffff`, `max = 0` untouched, yet the
`tlut_size > 0` guard still executes `tlut_size = 2 * (max + 1 - min)` and
`tlut += 2 * min` in `u32` arithmetic, so regardless of the texel stream the hashed
range starts 131070 bytes past the start of the 2-byte palette buffer with length
4294836228 — entirely outside the supplied buffer rather than the buffer itself. -/
theorem c5_unrecognized_size_trims_out_of_bounds (texture : List Nat) :
    tlutTrim 2 texture = (131070, 4294836228) ∧ 2 < 131070 := by
  have h : palScan 2 texture = (0xffff, 0) := by simp [palScan]
  refine ⟨?_, by norm_num⟩
  simp only [tlutTrim, h]
  norm_num

/-- Auxiliary for C6: `swap16` of a promoted byte, masked to 14 bits, keeps only the
low 6 bits of the byte, scaled by 256. -/
theorem swap16_byte_mod (b : Nat) : swap16 (b % 256) % 16384 = b % 64 * 256 := by
  have h1 : b % 256 % 256 = b % 256 := Nat.mod_mod_of_dvd b dvd_rfl
  have h2 : b % 256 / 256 = 0 := Nat.div_eq_of_lt (Nat.mod_lt b (by norm_num))
  have h3 : (16384 : Nat) = 64 * 256 := by norm_num
  unfold swap16
  rw [h1, h2, Nat.zero_mod, Nat.add_zero, h3, Nat.mul_mod_mul_right,
    Nat.mod_mod_of_dvd b (by norm_num : (64 : Nat) ∣ 256)]

/-- Auxiliary for C6: the 14-bit scan folds only over the bytes at even offsets,
mapping each byte `b` to `b % 64 * 256`. -/
theorem scan14_evenBytes : ∀ (t : List Nat) (mm : Nat × Nat),
    scan14 t mm =
      (evenBytes t).foldl
        (fun mm b => (min mm.1 (b % 64 * 256), max mm.2 (b % 64 * 256))) mm
  | [], _ => rfl
  | [b], mm => by
    simp only [scan14, evenBytes, List.foldl, swap16_byte_mod]
  | a :: b :: rest, mm => by
    simp only [scan14, evenBytes, List.foldl, swap16_byte_mod]
    exact scan14_evenBytes rest _

/-- C6 (amended): the 14-bit active-index scan does not read whole 16-bit entries:
it reads only the byte at each even offset of the texel stream (the first byte of
each 16-bit entry), byte-swaps it as a promoted 16-bit value and masks to 14 bits —
yielding `byte % 64 * 256` — and tracks the minimum and maximum of those values. -/
theorem c6_scan_reads_even_bytes_only (texture : List Nat) :
    palScan 32768 texture =
      (evenBytes texture).foldl
        (fun mm b => (min mm.1 (b % 64 * 256), max mm.2 (b % 64 * 256)))
        (0xffff, 0) := by
  simpa [palScan] using scan14_evenBytes texture (0xffff, 0)

/-- C6 (counterexample): on the two-byte texel stream `[0, 1]` the code's scan sees
only the even byte 0 and yields the index range (0, 0); reading the 16-bit
little-endian entry masked to 14 bits, as the claim states, would yield (256, 256). -/
theorem c6_counterexample :
    palScan 32768 [0, 1] = (0, 0) ∧ scan14Spec [0, 1] (0xffff, 0) = (256, 256) ∧
      ((0, 0) : Nat × Nat) ≠ ((256, 256) : Nat × Nat) := by
  decide

/-- Whether level `c` is a legal successor of level `p` in a mip chain: `p` is not
yet 1x1 and `c` has exactly the halved (floored at 1) dimensions of `p`. This is the
keep-condition of the validation loop in `Load`. -/
def goodSucc (p c : Level) : Bool :=
  (decide (p.width ≠ 1) || decide (p.height ≠ 1)) &&
    decide (c.width = max (p.width / 2) 1) && decide (c.height = max (p.height / 2) 1)

/-- A chain of levels in which every level is a legal successor of the one before
it, starting from `p`. -/
def chainValidFrom (p : Level) : List Level → Bool
  | [] => true
  | c :: rest => goodSucc p c && chainValidFrom c rest

/-- Auxiliary for C3: the geometry-validation loop keeps exactly a maximal valid
chain: if the tail is a valid chain `pre` followed by a first offending level `bad`
(and anything after it), the loop returns `pre` and drops the rest. -/
theorem dropInvalidLevels_append (l0 bad : Level) (pre tail : List Level)
    (hpre : chainValidFrom l0 pre = true)
    (hbad : goodSucc (pre.getLastD l0) bad = false) :
    dropInvalidLevels l0.width l0.height (pre ++ bad :: tail) = pre := by
  induction pre generalizing l0 with
  | nil =>
    simp only [List.getLastD] at hbad
    simp only [List.nil_append, dropInvalidLevels]
    by_cases h1 : l0.width ≠ 1 ∨ l0.height ≠ 1
    · rw [if_pos h1, if_neg]
      intro ⟨hw, hh⟩
      rcases h1 with h1 | h1 <;> simp [goodSucc, hw, hh, h1] at hbad
    · rw [if_neg h1]
  | cons c pre' ih =>
    rw [chainValidFrom, Bool.and_eq_true] at hpre
    obtain ⟨hgood, hpre'⟩ := hpre
    simp only [goodSucc, Bool.and_eq_true, Bool.or_eq_true, decide_eq_true_eq] at hgood
    obtain ⟨⟨hne, hw⟩, hh⟩ := hgood
    simp only [List.cons_append, dropInvalidLevels]
    rw [if_pos, if_pos ⟨hw, hh⟩]
    · have hbad2 : goodSucc (pre'.getLastD c) bad = false := by
        rwa [List.getLastD_cons] at hbad
      rw [← hw, ← hh]
      simp only [List.append_eq]
      rw [ih c hpre' hbad2]
    · exact hne

/-- C3 (amended): in the mip chain assembled by `Load`, the first level that is not
exactly the halved size of its (valid) predecessor — including any level after both
dimensions have reached 1 — is discarded together with every level after it, all
earlier valid levels are kept, and, provided the kept levels all share level 0's
format, the replacement is still returned rather than rejected. -/
theorem c3_first_bad_level_truncates (l0 bad : Level) (pre tail : List Level)
    (hpre : chainValidFrom l0 pre = true)
    (hbad : goodSucc (pre.getLastD l0) bad = false)
    (hfmt : ((l0 :: pre).all fun l => l.format == l0.format) = true) :
    truncateChain (l0 :: (pre ++ bad :: tail)) = l0 :: pre ∧
    validateLevels (l0 :: (pre ++ bad :: tail)) = some (l0 :: pre) := by
  have ht := dropInvalidLevels_append l0 bad pre tail hpre hbad
  refine ⟨by rw [truncateChain, ht], ?_⟩
  rw [validateLevels]
  simp only [ht]
  rw [if_neg]
  simp only [List.all_eq_true, beq_iff_eq] at hfmt
  simp only [List.any_eq_true, not_exists, not_and]
  intro l hl
  simp [hfmt l hl]

/-- C3 (amended) witness: a chain 4x4, 2x2, then an offending 5x5 level is truncated
to its valid two-level front and still returned. -/
theorem c3_first_bad_level_truncates_witness :
    chainValidFrom ⟨4, 4, 0, 4, 16⟩ [⟨2, 2, 0, 2, 4⟩] = true ∧
    goodSucc ([(⟨2, 2, 0, 2, 4⟩ : Level)].getLastD ⟨4, 4, 0, 4, 16⟩) ⟨5, 5, 0, 5, 25⟩ =
      false ∧
    (([⟨4, 4, 0, 4, 16⟩, ⟨2, 2, 0, 2, 4⟩] : List Level).all
        fun l => l.format == (Level.mk 4 4 0 4 16).format) = true ∧
    (truncateChain [⟨4, 4, 0, 4, 16⟩, ⟨2, 2, 0, 2, 4⟩, ⟨5, 5, 0, 5, 25⟩] =
        [⟨4, 4, 0, 4, 16⟩, ⟨2, 2, 0, 2, 4⟩] ∧
      validateLevels [⟨4, 4, 0, 4, 16⟩, ⟨2, 2, 0, 2, 4⟩, ⟨5, 5, 0, 5, 25⟩] =
        some [⟨4, 4, 0, 4, 16⟩, ⟨2, 2, 0, 2, 4⟩]) :=
  ⟨by decide, by decide, by decide,
   c3_first_bad_level_truncates ⟨4, 4, 0, 4, 16⟩ ⟨5, 5, 0, 5, 25⟩ [⟨2, 2, 0, 2, 4⟩] []
     (by decide) (by decide) (by decide)⟩

/-- C3 (counterexample): a chain whose level 1 is geometrically valid but has a
different format than level 0, followed by a geometry-offending level 2: the
offending level is discarded as the claim says, but the replacement is then rejected
(`none`) by the format check over the kept levels instead of being returned. -/
theorem c3_counterexample :
    chainValidFrom ⟨4, 4, 0, 4, 16⟩ [⟨2, 2, 1, 2, 4⟩] = true ∧
    goodSucc ⟨2, 2, 1, 2, 4⟩ ⟨5, 5, 1, 5, 25⟩ = false ∧
    truncateChain [⟨4, 4, 0, 4, 16⟩, ⟨2, 2, 1, 2, 4⟩, ⟨5, 5, 1, 5, 25⟩] =
      [⟨4, 4, 0, 4, 16⟩, ⟨2, 2, 1, 2, 4⟩] ∧
    validateLevels [⟨4, 4, 0, 4, 16⟩, ⟨2, 2, 1, 2, 4⟩, ⟨5, 5, 1, 5, 25⟩] = none := by
  refine ⟨by decide, by decide, by decide, by decide⟩

/-- C9 (amended): only the prefetch path drops the cache mutex around the load: on a
prefetch cache miss the mutex is explicitly released before `Load` and re-acquired
to insert, so no load there runs under the lock; the render-thread `Search` path, by
contrast, performs its cache-miss load while holding the mutex, since its
`lock_guard` spans lookup, load and insert. -/
theorem c9_only_prefetch_drops_lock_for_load :
    (∀ hit loadOk : Bool, loadsWhileLocked (prefetchEntryActions hit loadOk) 0 = false) ∧
    (∀ loadOk cacheEnabled : Bool,
      loadsWhileLocked (searchActions false loadOk cacheEnabled) 0 = true) := by
  constructor
  · intro hit loadOk
    cases hit <;> cases loadOk <;> rfl
  · intro loadOk cacheEnabled
    cases loadOk <;> cases cacheEnabled <;> rfl

/-- C9 (counterexample): on the render-thread `Search` cache-miss path the `Load`
call happens while the cache mutex is held, contradicting the claim that the mutex
is never held during the load on any cache-miss path. -/
theorem c9_counterexample :
    loadsWhileLocked (searchActions false true true) 0 = true := by decide

/-- Auxiliary for C7/C10: an insert never removes other keys — any key that resolved
before the insert still resolves after it. -/
theorem lookup_cacheInsert_isSome (c : Cache) (k : String) (v : HiresTex) (k2 : String)
    (h : (c.lookup k2).isSome) : ((cacheInsert c k v).lookup k2).isSome := by
  induction c with
  | nil => simp [List.lookup] at h
  | cons kv rest ih =>
    obtain ⟨k1, v1⟩ := kv
    by_cases hk : k1 = k
    · subst hk
      simp only [cacheInsert, if_pos rfl]
      by_cases h2 : (k2 == k1) = true
      · simp [List.lookup, h2]
      · simp only [Bool.not_eq_true] at h2
        simpa [List.lookup, h2] using h
    · simp only [cacheInsert, if_neg hk]
      by_cases h2 : k2 = k1
      · subst h2
        simp [List.lookup]
      · rw [List.lookup] at h ⊢
        have : (k2 == k1) = false := by simpa using h2
        rw [this] at h ⊢
        exact ih h

/-- Auxiliary for C7: membership in the cache list implies the key resolves. -/
theorem lookup_isSome_of_mem (c : Cache) (kv : String × HiresTex) (h : kv ∈ c) :
    (c.lookup kv.1).isSome := by
  induction c with
  | nil => simp at h
  | cons kv1 rest ih =>
    rcases List.mem_cons.mp h with h | h
    · subst h
      simp [List.lookup]
    · by_cases he : (kv.1 == kv1.1) = true
      · simp [List.lookup, he]
      · simp only [Bool.not_eq_true] at he
        simpa [List.lookup, he] using ih h

/-- Auxiliary for C7: the per-entry prefetch step never removes cache entries: every
key that resolved before the step still resolves after it. -/
theorem prefetchEntryState_keeps_entries (E : ExtDeps) (cat : Catalog)
    (st : PrefetchState) (name : String) (kv : String × HiresTex) (h : kv ∈ st.cache) :
    (((prefetchEntryState E cat st name).cache).lookup kv.1).isSome := by
  unfold prefetchEntryState
  split
  · exact lookup_isSome_of_mem _ _ h
  · cases hfind : st.cache.lookup name with
    | some t => simpa using lookup_isSome_of_mem _ _ h
    | none =>
      cases hload : load E cat name with
      | some t =>
        simp only [hfind, hload]
        exact lookup_cacheInsert_isSome _ _ _ _ (lookup_isSome_of_mem _ _ h)
      | none => simpa [hfind, hload] using lookup_isSome_of_mem _ _ h

/-- C7: at any catalog entry where (with the abort signal unset at that step) the
accumulated byte size of loaded levels exceeds the memory ceiling, the prefetch loop
returns immediately — the remaining entries are left unprocessed — posting exactly
the "not enough RAM" message carrying the accumulated size, turning the
hi-res-texture config flag off, and keeping the cache accumulated so far: every
previously cached entry still resolves. -/
theorem c7_budget_exceeded_aborts (E : ExtDeps) (cat : Catalog) (abort : Nat → Bool)
    (budget : Nat) (e : String × DiskTexture) (rest : List (String × DiskTexture))
    (k : Nat) (st : PrefetchState)
    (h1 : abort k = false)
    (h2 : budget < (prefetchEntryState E cat st e.1).sizeSum) :
    prefetchLoop E cat abort budget (e :: rest) k st =
      ⟨(prefetchEntryState E cat st e.1).cache,
       [OsdEvent.notEnoughRam (prefetchEntryState E cat st e.1).sizeSum], false, rest⟩ ∧
    (st.cache.all fun kv =>
        (((prefetchEntryState E cat st e.1).cache).lookup kv.1).isSome) = true := by
  constructor
  · simp [prefetchLoop, h1, h2]
  · rw [List.all_eq_true]
    intro kv hkv
    exact prefetchEntryState_keeps_entries E cat st e.1 kv hkv

/-- A tiny concrete codec/filesystem fixture for witnesses: the DDS container path
always yields one 1x1 RGBA8 level of 5 bytes; every other decode path fails. -/
def demoExt : ExtDeps :=
  ⟨fun _ => [⟨1, 1, 0, 1, 5⟩], fun _ _ => none, fun _ => [], fun _ => none⟩

/-- A one-entry catalog fixture for witnesses. -/
def demoCatalog : Catalog := [("a", ⟨"p", false⟩)]

/-- C7 witness: with a one-byte... with a zero-byte ceiling, the loop aborts on its
very first entry, reports the 5 loaded bytes and disables the feature flag. -/
theorem c7_budget_exceeded_aborts_witness :
    (fun _ : Nat => false) 0 = false ∧
    0 < (prefetchEntryState demoExt demoCatalog ⟨[], 0⟩ "a").sizeSum ∧
    (prefetchLoop demoExt demoCatalog (fun _ => false) 0 [("a", ⟨"p", false⟩)] 0 ⟨[], 0⟩ =
        ⟨(prefetchEntryState demoExt demoCatalog ⟨[], 0⟩ "a").cache,
         [OsdEvent.notEnoughRam (prefetchEntryState demoExt demoCatalog ⟨[], 0⟩ "a").sizeSum],
         false, []⟩ ∧
      (([] : Cache).all fun kv =>
          (((prefetchEntryState demoExt demoCatalog ⟨[], 0⟩ "a").cache).lookup kv.1).isSome) =
        true) :=
  ⟨rfl, by decide,
   c7_budget_exceeded_aborts demoExt demoCatalog (fun _ => false) 0 ("a", ⟨"p", false⟩)
     [] 0 ⟨[], 0⟩ rfl (by decide)⟩

/-- The cache invariant of C10 as a decidable check: every stored texture has at
least one mip level. -/
def cacheInvB (c : Cache) : Bool :=
  c.all fun kv => !kv.2.levels.isEmpty

/-- Auxiliary for C10: a successful validation returns a non-empty chain (level 0 is
always kept). -/
theorem validateLevels_some_not_empty (levels kept : List Level)
    (h : validateLevels levels = some kept) : kept.isEmpty = false := by
  cases levels with
  | nil => simp [validateLevels] at h
  | cons l0 rest =>
    simp only [validateLevels] at h
    by_cases hc : ((l0 :: dropInvalidLevels l0.width l0.height rest).any
        fun l => decide (l.format ≠ l0.format)) = true
    · rw [if_pos hc] at h
      exact absurd h (by simp)
    · rw [if_neg hc] at h
      simp only [Option.some.injEq] at h
      subst h
      rfl

/-- Auxiliary for C10: a successful load returns a texture with at least one level. -/
theorem load_some_not_empty (E : ExtDeps) (cat : Catalog) (base : String) (t : HiresTex)
    (h : load E cat base = some t) : t.levels.isEmpty = false := by
  unfold load at h
  cases hc : cat.lookup base with
  | none =>
    rw [hc] at h
    exact absurd h (by simp)
  | some dt =>
    simp only [hc] at h
    cases hv : validateLevels (loadLoop E cat base (cat.length + 1)
        (E.ddsFull dt.path).length (E.ddsFull dt.path)) with
    | none =>
      rw [hv] at h
      exact absurd h (by simp)
    | some kept =>
      rw [hv] at h
      cases t with
      | mk lv arb =>
        simp only [Option.some.injEq, HiresTex.mk.injEq] at h
        obtain ⟨h1, h2⟩ := h
        subst h1
        exact validateLevels_some_not_empty _ _ hv

/-- Auxiliary for C10: inserting a texture with at least one level preserves the
cache invariant. -/
theorem cacheInvB_insert (c : Cache) (k : String) (v : HiresTex)
    (hc : cacheInvB c = true) (hv : v.levels.isEmpty = false) :
    cacheInvB (cacheInsert c k v) = true := by
  induction c with
  | nil => simp [cacheInvB, cacheInsert, hv]
  | cons kv rest ih =>
    obtain ⟨k1, v1⟩ := kv
    simp only [cacheInvB, List.all_cons, Bool.and_eq_true] at hc
    obtain ⟨h1, h2⟩ := hc
    by_cases hk : k1 = k
    · subst hk
      simp only [cacheInsert, if_pos rfl]
      simp [cacheInvB, hv, h2]
    · simp only [cacheInsert, if_neg hk]
      have h3 := ih h2
      simp only [cacheInvB, List.all_cons, Bool.and_eq_true]
      exact ⟨h1, h3⟩

/-- Auxiliary for C10: dropping entries (the staleness sweep is a filter) preserves
the cache invariant. -/
theorem cacheInvB_filter (c : Cache) (p : String × HiresTex → Bool)
    (hc : cacheInvB c = true) : cacheInvB (c.filter p) = true := by
  rw [cacheInvB, List.all_eq_true] at hc ⊢
  intro kv hkv
  exact hc kv (List.mem_of_mem_filter hkv)

/-- C10: every cache operation keeps the invariant that stored values are
successfully loaded textures with at least one level — `Search` and the prefetch
entry step insert only loads that returned a texture, the staleness sweep only drops
entries, and `Clear` empties the map — and a failed load leaves the cache map
unchanged on both the `Search` and the prefetch paths. -/
theorem c10_cache_stores_only_loaded (E : ExtDeps) (cat sweepCat : Catalog)
    (cache : Cache) (en : Bool) (base name : String) (s : Nat)
    (h : cacheInvB cache = true) :
    cacheInvB (search E cat cache en base).2 = true ∧
    cacheInvB (prefetchEntryState E cat ⟨cache, s⟩ name).cache = true ∧
    cacheInvB (staleSweep sweepCat cache) = true ∧
    cacheInvB clearedCache = true ∧
    (load E cat base = none → (search E cat cache en base).2 = cache) ∧
    (load E cat name = none → (prefetchEntryState E cat ⟨cache, s⟩ name).cache = cache) := by
  refine ⟨?_, ?_, cacheInvB_filter cache _ h, rfl, ?_, ?_⟩
  · cases hf : cache.lookup base with
    | some t => simp [search, hf, h]
    | none =>
      cases hl : load E cat base with
      | none => simp [search, hf, hl, h]
      | some t =>
        cases en with
        | false => simp [search, hf, hl, h]
        | true =>
          simp only [search, hf, hl, if_pos rfl]
          exact cacheInvB_insert cache base t h (load_some_not_empty E cat base t hl)
  · unfold prefetchEntryState
    split
    · exact h
    · cases hf : cache.lookup name with
      | some t => simpa using h
      | none =>
        cases hl : load E cat name with
        | some t =>
          simp only [hf, hl]
          exact cacheInvB_insert cache name t h (load_some_not_empty E cat name t hl)
        | none => simpa [hf, hl] using h
  · intro hl
    cases hf : cache.lookup base with
    | some t => simp [search, hf]
    | none => simp [search, hf, hl]
  · intro hl
    unfold prefetchEntryState
    split
    · rfl
    · cases hf : cache.lookup name with
      | some t => simp [hf]
      | none => simp [hf, hl]

/-- C10 witness at a concrete catalog, codec and empty cache. -/
theorem c10_cache_stores_only_loaded_witness :
    cacheInvB [] = true ∧
    (cacheInvB (search demoExt demoCatalog [] true "a").2 = true ∧
      cacheInvB (prefetchEntryState demoExt demoCatalog ⟨[], 0⟩ "a").cache = true ∧
      cacheInvB (staleSweep demoCatalog []) = true ∧
      cacheInvB clearedCache = true ∧
      (load demoExt demoCatalog "a" = none →
        (search demoExt demoCatalog [] true "a").2 = []) ∧
      (load demoExt demoCatalog "a" = none →
        (prefetchEntryState demoExt demoCatalog ⟨[], 0⟩ "a").cache = [])) :=
  ⟨by decide,
   c10_cache_stores_only_loaded demoExt demoCatalog demoCatalog [] true "a" "a" 0
     (by decide)⟩

/-- C8 (amended): two resolve inputs that differ only in the palette bytes outside
the trimmed range `[2*min, 2*(max+1))` — in particular only in entries below the
minimum or above the maximum index that the texel stream references — produce the
same canonical name (with equal latch states), for any recognized palette size. -/
theorem c8_trimmed_palette_agreement (cat : List String) (dump : Bool)
    (st : Option TlutToId) (texture tlut1 tlut2 : List Nat)
    (tlutSize width height format : Nat) (m : Bool)
    (hrec : tlutSize = 32 ∨ tlutSize = 512 ∨ tlutSize = 32768)
    (hagree : (tlut1.drop (tlutTrim tlutSize texture).1).take (tlutTrim tlutSize texture).2 =
      (tlut2.drop (tlutTrim tlutSize texture).1).take (tlutTrim tlutSize texture).2) :
    genBaseName cat dump st texture tlut1 tlutSize width height format m =
      genBaseName cat dump st texture tlut2 tlutSize width height format m := by
  have hn : tlutNameOf texture tlut1 tlutSize = tlutNameOf texture tlut2 tlutSize := by
    simp only [tlutNameOf, hagree]
  simp only [genBaseName, hn]

/-- C8 (amended) witness: an 8-bit palette where only entry 3 — above the maximum
referenced index 2 — differs resolves to the same name. -/
theorem c8_trimmed_palette_agreement_witness :
    ((512 : Nat) = 32 ∨ (512 : Nat) = 512 ∨ (512 : Nat) = 32768) ∧
    (((List.replicate 512 0 : List Nat).drop (tlutTrim 512 [0, 2]).1).take
        (tlutTrim 512 [0, 2]).2 =
      ((([0, 0, 0, 0, 0, 0, 7, 7] ++ List.replicate 504 0 : List Nat)).drop
          (tlutTrim 512 [0, 2]).1).take (tlutTrim 512 [0, 2]).2) ∧
    genBaseName [] true none [0, 2] (List.replicate 512 0) 512 8 8 5 false =
      genBaseName [] true none [0, 2]
        ([0, 0, 0, 0, 0, 0, 7, 7] ++ List.replicate 504 0) 512 8 8 5 false :=
  ⟨by decide, by decide,
   c8_trimmed_palette_agreement [] true none [0, 2] (List.replicate 512 0)
     ([0, 0, 0, 0, 0, 0, 7, 7] ++ List.replicate 504 0) 512 8 8 5 false
     (by decide) (by decide)⟩

/-- C8 (counterexample): two 512-byte palettes agreeing on every entry the texel
stream `[0, 2]` references (entries 0 and 2; the stream does not contain index 1)
but differing in the never-referenced entry 1 — which lies inside the trimmed range
`[min, max]` — resolve to different canonical names. -/
theorem c8_counterexample :
    ((List.replicate 512 0 : List Nat).take 2 =
        (([0, 0, 9, 9, 0, 0] ++ List.replicate 506 0 : List Nat)).take 2) ∧
    (((List.replicate 512 0 : List Nat).drop 4).take 2 =
        ((([0, 0, 9, 9, 0, 0] ++ List.replicate 506 0 : List Nat)).drop 4).take 2) ∧
    ([0, 2] : List Nat).contains 1 = false ∧
    (genBaseName [] true none [0, 2] (List.replicate 512 0) 512 8 8 5 false).1 ≠
      (genBaseName [] true none [0, 2] ([0, 0, 9, 9, 0, 0] ++ List.replicate 506 0)
          512 8 8 5 false).1 := by
  refine ⟨by decide, by decide, by decide, by decide⟩
